import Mathlib

/-!
Shallow embedding of the token-lifecycle subsystem of the
`goit-pythonweb-hw-012` contact-book backend: JWT creation/verification
(`src/services/auth.py`) and the auth API routes (`src/api/auth.py`,
`src/api/users.py`), together with the `User` model fields they touch
(`src/database/models.py`).

Modelling conventions:
* A JWT string is represented abstractly: `TokenStr.signed c k` is the
  (deterministic) encoding of payload `c` under secret key `k`;
  `TokenStr.garbage s` is any string that is not a well-formed signed token.
  `jwt.encode` is deterministic for a fixed payload/key, so equality of
  `TokenStr` values models equality of the serialized strings.
* `jwt.decode(token, key, algorithms=[alg])` (python-jose, default options)
  succeeds iff the token is signed under `key` (the signing algorithm is a
  process-wide constant, folded into the key) and its `exp` claim is not in
  the past: jose raises `ExpiredSignatureError` exactly when `exp < now`.
* Timestamps are integers (unix seconds); `timedelta(minutes=m)` is `60*m`.
* The database is a list of user rows; `scalar_one_or_none` over a
  `username`-keyed query is `List.find?` (the `username` column is declared
  `unique=True` in `src/database/models.py`).
* A raised `HTTPException(status, detail)` is the value
  `RouteResult.httpError status detail`; an uncaught non-HTTP Python
  exception escaping a route is `RouteResult.pyError`.
-/

namespace HW12

/-- Payload claims of a decoded JWT, restricted to the fields the code
reads: `sub` and `token_type` (absent keys are `none`, matching
`payload.get(...)` returning `None`), plus `iat` and `exp`. -/
structure Claims where
  sub : Option String
  token_type : Option String
  iat : Int
  exp : Int
deriving DecidableEq, Repr

/-- A JWT string: either the deterministic encoding of a payload under a
secret key, or a string that is not a valid signed token. -/
inductive TokenStr where
  | signed (claims : Claims) (key : String)
  | garbage (s : String)
deriving DecidableEq, Repr

/-- The caller-supplied `data` dict passed to the token constructors
(`{"sub": username}` at every call site); `exp`/`iat`/`token_type` are
overwritten by the constructor itself. -/
structure TokenData where
  sub : Option String := none
  token_type : Option String := none
deriving DecidableEq, Repr

/-- The configuration fields of `src/conf/config.py` consumed by the token
code (`JWT_ALGORITHM` is folded into the key, see module comment). -/
structure Settings where
  JWT_SECRET : String
  ACCESS_TOKEN_EXPIRE_MINUTES : Int := 30
  REFRESH_TOKEN_EXPIRE_MINUTES : Int := 30
deriving DecidableEq, Repr

/-- The `UserRole` enum of `src/database/models.py`. -/
inductive UserRole where
  | user
  | admin
deriving DecidableEq, Repr

/-- The `users` table row (`src/database/models.py`); nullable columns are
`Option`. `refresh_token` stores a token string, represented as `TokenStr`. -/
structure DUser where
  id : Int
  username : String
  email : String
  hashed_password : String
  created_at : Int := 0
  refresh_token : Option TokenStr := none
  avatar : Option String := none
  confirmed : Option Bool := none
  user_role : UserRole := UserRole.user
deriving DecidableEq, Repr

/-- The user directory state: the list of rows of the `users` table. -/
abbrev Db := List DUser

/-- Python truthiness of a nullable boolean column (`confirmed` is declared
`nullable=True`): `None` and `False` are falsy. -/
def pyTruthy : Option Bool → Bool
  | some true => true
  | _ => false

/-- Outcome of a FastAPI route: a returned value, a raised
`HTTPException(status, detail)`, or an uncaught Python exception. -/
inductive RouteResult (α : Type) where
  | ok (a : α)
  | httpError (status : Nat) (detail : String)
  | pyError (exc : String)
deriving DecidableEq, Repr

/-- Semantics of `jwt.decode(token, key, algorithms=[alg])` with python-jose default
options: succeeds iff the token is signed under `key` and `now ≤ exp`
(jose raises `ExpiredSignatureError` exactly when `exp < now`); returns
`none` when a `JWTError` is raised. -/
def jwtDecode (t : TokenStr) (key : String) (now : Int) : Option Claims :=
  match t with
  | TokenStr.signed c k => if k = key ∧ now ≤ c.exp then some c else none
  | TokenStr.garbage _ => none

namespace AuthService

/-- Embeds `AuthService._create_token` (src/services/auth.py:149-177): copies the
data, sets `exp = now + expires_delta`, `iat = now`, `token_type`, and signs
under the module-level `secret_key`. `expires_delta` is in seconds. -/
def _create_token (s : Settings) (data : TokenData) (expires_delta : Int)
    (token_type : String) (now : Int) : TokenStr :=
  TokenStr.signed
    { sub := data.sub, token_type := some token_type,
      iat := now, exp := now + expires_delta }
    s.JWT_SECRET

/-- Embeds `AuthService.create_access_token` (src/services/auth.py:179-203).
`if expires_delta:` is a Python truthiness test, so both `None` and a zero
timedelta fall through to the default
`timedelta(minutes=access_expire)`. -/
def create_access_token (s : Settings) (data : TokenData)
    (expires_delta : Option Int) (now : Int) : TokenStr :=
  match expires_delta with
  | some d =>
    if d ≠ 0 then _create_token s data d "access" now
    else _create_token s data (60 * s.ACCESS_TOKEN_EXPIRE_MINUTES) "access" now
  | none => _create_token s data (60 * s.ACCESS_TOKEN_EXPIRE_MINUTES) "access" now

/-- Embeds `AuthService.create_refresh_token` (src/services/auth.py:205-229);
same truthiness fallback with `timedelta(minutes=refresh_expire)`. -/
def create_refresh_token (s : Settings) (data : TokenData)
    (expires_delta : Option Int) (now : Int) : TokenStr :=
  match expires_delta with
  | some d =>
    if d ≠ 0 then _create_token s data d "refresh" now
    else _create_token s data (60 * s.REFRESH_TOKEN_EXPIRE_MINUTES) "refresh" now
  | none => _create_token s data (60 * s.REFRESH_TOKEN_EXPIRE_MINUTES) "refresh" now

/-- Embeds `AuthService.verify_refresh_token` (src/services/auth.py:231-268):
decode; reject if `sub` is `None` or `token_type != "refresh"`; otherwise
select the user with `username == sub AND refresh_token == token` and return
it (`scalar_one_or_none`), `none` if no row matches or on `JWTError`. -/
def verify_refresh_token (s : Settings) (refresh_token : TokenStr)
    (db : Db) (now : Int) : Option DUser :=
  match jwtDecode refresh_token s.JWT_SECRET now with
  | none => none
  | some payload =>
    match payload.sub with
    | none => none
    | some username =>
      if payload.token_type ≠ some "refresh" then none
      else db.find? fun u =>
        u.username = username ∧ u.refresh_token = some refresh_token

/-- Embeds `AuthService.get_email_from_token` (src/services/auth.py:270-291):
decode and return `payload["sub"]`; only `JWTError` is caught (giving
`.ok none`), so a validly-signed payload with no `"sub"` key raises an
uncaught `KeyError`. -/
def get_email_from_token (s : Settings) (token : TokenStr) (now : Int) :
    Except String (Option String) :=
  match jwtDecode token s.JWT_SECRET now with
  | none => Except.ok none
  | some payload =>
    match payload.sub with
    | some email => Except.ok (some email)
    | none => Except.error "KeyError"

end AuthService

/-- Embeds `create_email_token` (src/services/auth.py:111-134): copies the data and
sets `iat = now`, `exp = now + 7 days`; no `token_type` key is added. -/
def create_email_token (s : Settings) (data : TokenData) (now : Int) : TokenStr :=
  TokenStr.signed
    { sub := data.sub, token_type := data.token_type,
      iat := now, exp := now + 7 * 24 * 3600 }
    s.JWT_SECRET

namespace Hash

/-- Modelled from the spec: `Hash.get_password_hash` lives in
`src/security/hashing.py`, which is not among the provided sources; the spec
treats the password hashing primitive as "an opaque one-way function"
specified only at its interface boundary. Modelled as an injective tagging
of the plaintext. -/
def get_password_hash (password : String) : String :=
  "bcrypt$" ++ password

/-- Modelled from the spec: `Hash.verify_password` of the missing
`src/security/hashing.py`; succeeds exactly when the stored hash is the hash
of the presented plaintext. -/
def verify_password (plain hashed : String) : Bool :=
  hashed = get_password_hash plain

end Hash

namespace UsersRepository

/-- Modelled from the spec: `UsersRepository.get_user_by_username` lives in
`src/repository/users.py`, which is not among the provided sources; the
spec's UserDirectory provides "lookup of a user record by username/email".
First row whose unique `username` column matches. -/
def get_user_by_username (db : Db) (username : String) : Option DUser :=
  db.find? fun u => u.username = username

/-- Modelled from the spec: `UsersRepository.get_user_by_email` of the
missing `src/repository/users.py`; lookup by the unique `email` column. -/
def get_user_by_email (db : Db) (email : String) : Option DUser :=
  db.find? fun u => u.email = email

/-- Modelled from the spec: `UsersRepository.confirmed_email` of the missing
`src/repository/users.py`; the confirmation flow "flip[s] `confirmed=true`,
persist[s]" for the user at that email, touching no other field. -/
def confirmed_email (db : Db) (email : String) : Db :=
  db.map fun u =>
    if u.email = email then { u with confirmed := some true } else u

/-- Modelled from the spec: `UsersRepository.reset_password` of the missing
`src/repository/users.py`; redemption "replaces `hashed_password` with the
hash of the new password" for the user at that email. -/
def reset_password (db : Db) (email : String) (hashed : String) : Db :=
  db.map fun u =>
    if u.email = email then { u with hashed_password := hashed } else u

/-- Modelled from the spec: `UsersRepository.update_avatar_url` of the
missing `src/repository/users.py`; stores the new avatar URL on the user at
that email. -/
def update_avatar_url (db : Db) (email : String) (url : String) : Db :=
  db.map fun u =>
    if u.email = email then { u with avatar := some url } else u

end UsersRepository

/-- Embeds `get_current_user` (src/services/auth.py:43-84): decode the bearer token
(`JWTError` → 401 "Invalid token"), reject a missing `sub`
(401 "User not found"), look the username up in the directory
(missing → 401 "User not found"). No `token_type` check is performed. -/
def get_current_user (s : Settings) (token : TokenStr) (db : Db) (now : Int) :
    RouteResult DUser :=
  match jwtDecode token s.JWT_SECRET now with
  | none => RouteResult.httpError 401 "Invalid token"
  | some payload =>
    match payload.sub with
    | none => RouteResult.httpError 401 "User not found"
    | some username =>
      match UsersRepository.get_user_by_username db username with
      | none => RouteResult.httpError 401 "User not found"
      | some user => RouteResult.ok user

/-- Embeds `get_current_admin_user` (src/services/auth.py:87-108): 403 when the
authenticated user's role is not `ADMIN`. -/
def get_current_admin_user (current_user : DUser) : RouteResult DUser :=
  if current_user.user_role ≠ UserRole.admin then
    RouteResult.httpError 403 "No access rights"
  else RouteResult.ok current_user

/-- Response body of the login and refresh routes:
`{access_token, refresh_token, token_type}`. -/
structure LoginResponse where
  access_token : TokenStr
  refresh_token : TokenStr
  token_type : String
deriving DecidableEq, Repr

namespace Api

/-- Embeds `login` (src/api/auth.py:110-159): lookup by username
(missing → 401 "Invalid username"), verify the password
(401 "Invalid password"), check `confirmed` (401 "Email wasn't confirmed");
on success mint access and refresh tokens for `{"sub": user.username}`,
overwrite the row's `refresh_token` with the new refresh token, commit, and
return both tokens with `token_type "bearer"`. Returns the response together
with the post-state of the directory. -/
def login (s : Settings) (username password : String) (db : Db) (now : Int) :
    RouteResult LoginResponse × Db :=
  match UsersRepository.get_user_by_username db username with
  | none => (RouteResult.httpError 401 "Invalid username", db)
  | some user =>
    if ¬ Hash.verify_password password user.hashed_password then
      (RouteResult.httpError 401 "Invalid password", db)
    else if ¬ pyTruthy user.confirmed then
      (RouteResult.httpError 401 "Email wasn't confirmed", db)
    else
      let access_token :=
        AuthService.create_access_token s { sub := some user.username } none now
      let refresh_token :=
        AuthService.create_refresh_token s { sub := some user.username } none now
      let db2 := db.map fun u =>
        if u.username = user.username then
          { u with refresh_token := some refresh_token }
        else u
      (RouteResult.ok
        { access_token := access_token, refresh_token := refresh_token,
          token_type := "bearer" }, db2)

/-- Embeds `new_token`, the `/refresh-token` route (src/api/auth.py:162-197):
verify the presented refresh token (None → 401 "Invalid or expired refresh
token"); on success mint a new access token for the verified user's username
and echo the presented refresh token back unchanged. The directory is never
written. -/
def new_token (s : Settings) (refresh_token : TokenStr) (db : Db)
    (now : Int) : RouteResult LoginResponse × Db :=
  match AuthService.verify_refresh_token s refresh_token db now with
  | none => (RouteResult.httpError 401 "Invalid or expired refresh token", db)
  | some user =>
    let new_access_token :=
      AuthService.create_access_token s { sub := some user.username } none now
    (RouteResult.ok
      { access_token := new_access_token, refresh_token := refresh_token,
        token_type := "bearer" }, db)

/-- Embeds `confirmed_email`, the `/confirmed_email/{token}` route
(src/api/auth.py:249-284): extract the email from the token (an uncaught
`KeyError` from `get_email_from_token` escapes the route; a `None` email is
passed straight to the email lookup, which then finds no user), reject an
unknown user (400 "Verification error") and an already-confirmed one
(400 "Your email has already been confirmed"); otherwise persist
`confirmed=true` and return "Email confirmed!". -/
def confirmed_email (s : Settings) (token : TokenStr) (db : Db) (now : Int) :
    RouteResult String × Db :=
  match AuthService.get_email_from_token s token now with
  | Except.error e => (RouteResult.pyError e, db)
  | Except.ok none => (RouteResult.httpError 400 "Verification error", db)
  | Except.ok (some email) =>
    match UsersRepository.get_user_by_email db email with
    | none => (RouteResult.httpError 400 "Verification error", db)
    | some user =>
      if pyTruthy user.confirmed then
        (RouteResult.httpError 400 "Your email has already been confirmed", db)
      else
        (RouteResult.ok "Email confirmed!",
          UsersRepository.confirmed_email db email)

/-- Embeds `reset_password`, the `/reset_password` route (src/api/auth.py:332-365):
extract the email (None → 400 "Verification error"; an uncaught `KeyError`
escapes), reject an unknown user (400 "Verification error"); otherwise store
the hash of the new password and return "Password reset confirmed!". -/
def reset_password (s : Settings) (token : TokenStr) (password : String)
    (db : Db) (now : Int) : RouteResult String × Db :=
  match AuthService.get_email_from_token s token now with
  | Except.error e => (RouteResult.pyError e, db)
  | Except.ok none => (RouteResult.httpError 400 "Verification error", db)
  | Except.ok (some email) =>
    match UsersRepository.get_user_by_email db email with
    | none => (RouteResult.httpError 400 "Verification error", db)
    | some _ =>
      (RouteResult.ok "Password reset confirmed!",
        UsersRepository.reset_password db email
          (Hash.get_password_hash password))

/-- Embeds `update_avatar_user`, the `/users/avatar` route
(src/api/users.py:107-143): upload the file (the upload service is an
external collaborator; its returned URL is a parameter here) and store the
new avatar URL on the authenticated admin user's row. -/
def update_avatar_user (user : DUser) (avatar_url : String) (db : Db) :
    RouteResult (Option DUser) × Db :=
  let db2 := UsersRepository.update_avatar_url db user.email avatar_url
  (RouteResult.ok (UsersRepository.get_user_by_email db2 user.email), db2)

end Api

/-! Concrete example values, used to instantiate witnesses and
counterexamples. -/

/-- Example configuration: secret key `"k"`, default TTLs (30 minutes). -/
def exSettings : Settings := { JWT_SECRET := "k" }

/-- Payload of a refresh token for `alice`, issued at 0, expiring at 1800. -/
def exRefreshClaims : Claims :=
  { sub := some "alice", token_type := some "refresh", iat := 0, exp := 1800 }

/-- A signed refresh token for `alice` under the example secret. -/
def exRefreshTok : TokenStr := TokenStr.signed exRefreshClaims "k"

/-- Example confirmed user `alice`, with `exRefreshTok` stored. -/
def exUser : DUser :=
  { id := 1, username := "alice", email := "alice@example.com",
    hashed_password := Hash.get_password_hash "pw",
    refresh_token := some exRefreshTok, confirmed := some true }

/-- Example directory holding only `alice`. -/
def exDb : Db := [exUser]

/-- The login response produced by `login exSettings "alice" "pw" exDb 0`. -/
def exLoginResp : LoginResponse :=
  { access_token :=
      AuthService.create_access_token exSettings { sub := some "alice" } none 0,
    refresh_token :=
      AuthService.create_refresh_token exSettings { sub := some "alice" } none 0,
    token_type := "bearer" }

/-- The directory state after that login: `alice`'s stored refresh token has
been overwritten with the newly minted one. -/
def exDbAfter : Db :=
  [{ exUser with refresh_token := some exLoginResp.refresh_token }]

/-- Example unconfirmed user `bob`. -/
def exUserBob : DUser :=
  { id := 2, username := "bob", email := "bob@example.com",
    hashed_password := Hash.get_password_hash "pw2", confirmed := some false }

/-- Directory holding only the unconfirmed `bob`. -/
def exDbBob : Db := [exUserBob]

/-- Payload of an email-confirmation token for `bob`: `sub` is the email,
7-day expiry, no `token_type` key. -/
def exEmailClaims : Claims :=
  { sub := some "bob@example.com", token_type := none, iat := 0,
    exp := 604800 }

/-- The login response produced by `login exSettings "alice" "pw" exDb 7`
(clock at 7, so the minted tokens differ from `exRefreshTok`). -/
def exLoginResp7 : LoginResponse :=
  { access_token :=
      AuthService.create_access_token exSettings { sub := some "alice" } none 7,
    refresh_token :=
      AuthService.create_refresh_token exSettings { sub := some "alice" } none 7,
    token_type := "bearer" }

/-- The directory state after that login at clock 7. -/
def exDbAfter7 : Db :=
  [{ exUser with refresh_token := some exLoginResp7.refresh_token }]

/-! Helper lemmas shared by the claim theorems. -/

/-- Characterization of a successful `verify_refresh_token`: the result is
`some u` iff the token is signed under the configured secret, unexpired,
of kind `refresh`, its subject is `u.username`, and `u` is the row selected
by the username/stored-token query. -/
theorem verify_refresh_token_eq_some (s : Settings) (t : TokenStr) (db : Db)
    (now : Int) (u : DUser) :
    AuthService.verify_refresh_token s t db now = some u ↔
      ∃ c, t = TokenStr.signed c s.JWT_SECRET ∧ now ≤ c.exp ∧
        c.token_type = some "refresh" ∧ c.sub = some u.username ∧
        (db.find? fun v => v.username = u.username ∧ v.refresh_token = some t)
          = some u := by
  constructor
  · intro h
    cases t with
    | garbage str => simp [AuthService.verify_refresh_token, jwtDecode] at h
    | signed c k =>
      by_cases hk1 : k = s.JWT_SECRET
      · subst hk1
        by_cases hk2 : now ≤ c.exp
        · cases hsub : c.sub with
          | none =>
            simp [AuthService.verify_refresh_token, jwtDecode, hk2, hsub] at h
          | some username =>
            by_cases htt : c.token_type = some "refresh"
            · simp [AuthService.verify_refresh_token, jwtDecode, hk2, hsub,
                htt] at h
              have hp := List.find?_some h
              simp only [Bool.and_eq_true, decide_eq_true_eq] at hp
              refine ⟨c, rfl, hk2, htt, ?_, ?_⟩
              · rw [hsub, hp.1]
              · rw [hp.1]
                simpa using h
            · simp [AuthService.verify_refresh_token, jwtDecode, hk2, hsub,
                htt] at h
        · simp [AuthService.verify_refresh_token, jwtDecode, hk2] at h
      · simp [AuthService.verify_refresh_token, jwtDecode, hk1] at h
  · rintro ⟨c, rfl, hexp, htt, hsub, hfind⟩
    simp only [AuthService.verify_refresh_token, jwtDecode, hexp, hsub, htt,
      and_true, if_pos, eq_self_iff_true, true_and, if_true]
    simpa using hfind

/-- A signed token whose `token_type` claim is not `"refresh"` is always
rejected by `verify_refresh_token`. -/
theorem verify_refresh_token_wrong_type (s : Settings) (c : Claims)
    (k : String) (db : Db) (now : Int) (h : c.token_type ≠ some "refresh") :
    AuthService.verify_refresh_token s (TokenStr.signed c k) db now
      = none := by
  cases hv : AuthService.verify_refresh_token s (TokenStr.signed c k) db now
    with
  | none => rfl
  | some u =>
    exfalso
    rw [verify_refresh_token_eq_some] at hv
    obtain ⟨c', hc', _, htt', _, _⟩ := hv
    have : c = c' := by injection hc'
    exact h (this ▸ htt')

/-- Unpacking a successful `login`: the user was found by username, the
password verified, the account was confirmed, and the response and
post-state have the expected shape. -/
theorem login_ok_elim (s : Settings) (uname pw : String) (db : Db) (now : Int)
    (resp : LoginResponse) (db2 : Db)
    (h : Api.login s uname pw db now = (RouteResult.ok resp, db2)) :
    ∃ user, UsersRepository.get_user_by_username db uname = some user ∧
      Hash.verify_password pw user.hashed_password = true ∧
      pyTruthy user.confirmed = true ∧
      user.username = uname ∧
      resp = { access_token :=
                 AuthService.create_access_token s { sub := some uname } none now,
               refresh_token :=
                 AuthService.create_refresh_token s { sub := some uname } none now,
               token_type := "bearer" } ∧
      db2 = db.map fun u =>
        if u.username = uname then
          { u with refresh_token := some resp.refresh_token }
        else u := by
  unfold Api.login at h
  cases hlk : UsersRepository.get_user_by_username db uname with
  | none => rw [hlk] at h; simp at h
  | some user =>
    rw [hlk] at h
    have huname : user.username = uname := by simpa using List.find?_some hlk
    by_cases hpw : Hash.verify_password pw user.hashed_password
    · by_cases hcf : pyTruthy user.confirmed
      · simp only [hpw, hcf, not_true, if_neg, not_false_eq_true, if_false,
          ite_false, Bool.not_eq_true] at h
        simp only [Prod.mk.injEq, RouteResult.ok.injEq] at h
        obtain ⟨hresp, hdb2⟩ := h
        subst hresp
        subst hdb2
        refine ⟨user, rfl, hpw, hcf, huname, by simp [huname], ?_⟩
        simp [huname]
      · simp [hpw, hcf] at h
    · simp [hpw] at h

/-- With pairwise-distinct usernames (the `username` column is unique), at
most one token string passes `verify_refresh_token` for a given user. -/
theorem at_most_one_refresh (s : Settings) (db : Db)
    (hnd : (db.map DUser.username).Nodup) :
    ∀ t1 t2 n1 n2 u1 u2,
      AuthService.verify_refresh_token s t1 db n1 = some u1 →
      AuthService.verify_refresh_token s t2 db n2 = some u2 →
      u1.username = u2.username → t1 = t2 := by
  intro t1 t2 n1 n2 u1 u2 h1 h2 hu
  rw [verify_refresh_token_eq_some] at h1 h2
  obtain ⟨c1, rfl, h1a, h1b, h1c, hf1⟩ := h1
  obtain ⟨c2, rfl, h2a, h2b, h2c, hf2⟩ := h2
  have hp1 := List.find?_some hf1
  have hp2 := List.find?_some hf2
  simp only [Bool.and_eq_true, decide_eq_true_eq] at hp1 hp2
  have hm1 := List.mem_of_find?_eq_some hf1
  have hm2 := List.mem_of_find?_eq_some hf2
  have heq : u1 = u2 := List.inj_on_of_nodup_map hnd hm1 hm2 hu
  rw [heq] at hp1
  exact Option.some.inj (hp1.2.symm.trans hp2.2)

/-- Username-keyed lookup commutes with a row transformation that keeps
usernames unchanged. -/
theorem get_user_by_username_map (db : Db) (uname : String)
    (f : DUser → DUser) (hf : ∀ u, (f u).username = u.username) :
    UsersRepository.get_user_by_username (db.map f) uname =
      (UsersRepository.get_user_by_username db uname).map f := by
  unfold UsersRepository.get_user_by_username
  rw [List.find?_map]
  have hp : ((fun u : DUser => decide (u.username = uname)) ∘ f) =
      fun u : DUser => decide (u.username = uname) := by
    funext u
    simp [Function.comp, hf]
  rw [hp]

/-- Email-keyed lookup commutes with a row transformation that keeps emails
unchanged. -/
theorem get_user_by_email_map (db : Db) (email : String)
    (f : DUser → DUser) (hf : ∀ u, (f u).email = u.email) :
    UsersRepository.get_user_by_email (db.map f) email =
      (UsersRepository.get_user_by_email db email).map f := by
  unfold UsersRepository.get_user_by_email
  rw [List.find?_map]
  have hp : ((fun u : DUser => decide (u.email = email)) ∘ f) =
      fun u : DUser => decide (u.email = email) := by
    funext u
    simp [Function.comp, hf]
  rw [hp]

/-! Claim theorems. -/

/-- C1: `verify_refresh_token(t, db)` returns a user only when the token's
signature verifies under the configured secret key, the token is unexpired,
its `token_type` claim equals `"refresh"`, and the directory contains a user
whose username equals the token's `sub` claim and whose stored
`refresh_token` field equals `t` exactly; conversely such a state makes it
return a user, and in every other case — in particular for any token created
by `create_access_token` — it returns `None`. -/
theorem C1_verify_refresh_token_fails_closed (s : Settings) (t : TokenStr)
    (db : Db) (now : Int) :
    (∀ u, AuthService.verify_refresh_token s t db now = some u →
      ∃ c, t = TokenStr.signed c s.JWT_SECRET ∧ now ≤ c.exp ∧
        c.token_type = some "refresh" ∧ c.sub = some u.username ∧
        u.refresh_token = some t ∧ u ∈ db) ∧
    ((∃ c, t = TokenStr.signed c s.JWT_SECRET ∧ now ≤ c.exp ∧
        c.token_type = some "refresh" ∧
        ∃ u ∈ db, c.sub = some u.username ∧ u.refresh_token = some t) →
      ∃ u, AuthService.verify_refresh_token s t db now = some u) ∧
    (∀ (d : TokenData) (ed : Option Int) (n0 : Int),
      AuthService.verify_refresh_token s
        (AuthService.create_access_token s d ed n0) db now = none) := by
  refine ⟨?_, ?_, ?_⟩
  · intro u h
    rw [verify_refresh_token_eq_some] at h
    obtain ⟨c, rfl, hexp, htt, hsub, hfind⟩ := h
    have hp := List.find?_some hfind
    simp only [Bool.and_eq_true, decide_eq_true_eq] at hp
    exact ⟨c, rfl, hexp, htt, hsub, hp.2, List.mem_of_find?_eq_some hfind⟩
  · rintro ⟨c, rfl, hexp, htt, u, hmem, hsub, hrt⟩
    rw [← Option.isSome_iff_exists]
    simp [AuthService.verify_refresh_token, jwtDecode, hexp, hsub, htt]
    exact ⟨u, hmem, rfl, hrt⟩
  · intro d ed n0
    have key : ∀ dur : Int, AuthService.verify_refresh_token s
        (AuthService._create_token s d dur "access" n0) db now = none := by
      intro dur
      exact verify_refresh_token_wrong_type s _ _ db now (by simp)
    cases ed with
    | none => simpa [AuthService.create_access_token] using key _
    | some dd =>
      by_cases hdd : dd = 0 <;>
        simp [AuthService.create_access_token, hdd, key]

/-- Witness for C1: the stored example refresh token verifies in the
example directory. -/
theorem C1_witness :
    ∃ u, AuthService.verify_refresh_token exSettings exRefreshTok exDb 0
      = some u :=
  (C1_verify_refresh_token_fails_closed exSettings exRefreshTok exDb 0).2.1
    ⟨exRefreshClaims, rfl, by decide, rfl, exUser, by decide, rfl, rfl⟩

/-- C2: after a successful login overwrites user U's stored refresh token,
any previously issued refresh token for U (any differing token whose subject
is U's username) fails `verify_refresh_token` at every later instant, and in
the post-login state at most one token string verifies per user (given the
unique-username constraint of the `users` table). -/
theorem C2_single_active_refresh_token (s : Settings) (db db2 : Db)
    (now now' : Int) (uname pw : String) (resp : LoginResponse)
    (r1 : TokenStr) (c : Claims)
    (hnodup : (db.map DUser.username).Nodup)
    (hlogin : Api.login s uname pw db now = (RouteResult.ok resp, db2))
    (hr1 : r1 = TokenStr.signed c s.JWT_SECRET)
    (hsub : c.sub = some uname)
    (hne : r1 ≠ resp.refresh_token) :
    AuthService.verify_refresh_token s r1 db2 now' = none ∧
    ∀ t1 t2 n1 n2 u1 u2,
      AuthService.verify_refresh_token s t1 db2 n1 = some u1 →
      AuthService.verify_refresh_token s t2 db2 n2 = some u2 →
      u1.username = u2.username → t1 = t2 := by
  obtain ⟨user, hlk, hpw, hcf, huname, hresp, hdb2⟩ :=
    login_ok_elim _ _ _ _ _ _ _ hlogin
  constructor
  · cases hv : AuthService.verify_refresh_token s r1 db2 now' with
    | none => rfl
    | some u =>
      exfalso
      rw [verify_refresh_token_eq_some] at hv
      obtain ⟨c', hc', hexp', htt', hsub', hfind'⟩ := hv
      rw [hr1] at hc'
      have hcc : c = c' := by injection hc'
      subst hcc
      have hun : u.username = uname := by
        rw [hsub] at hsub'
        exact (Option.some.inj hsub').symm
      have hp := List.find?_some hfind'
      simp only [Bool.and_eq_true, decide_eq_true_eq] at hp
      have hmem := List.mem_of_find?_eq_some hfind'
      rw [hdb2, List.mem_map] at hmem
      obtain ⟨v, hvmem, hveq⟩ := hmem
      by_cases hb : v.username = uname
      · rw [if_pos hb] at hveq
        have hrt : u.refresh_token = some resp.refresh_token := by
          rw [← hveq]
        rw [hp.2] at hrt
        exact hne (Option.some.inj hrt)
      · rw [if_neg hb] at hveq
        rw [hveq] at hb
        exact hb hun
  · have hnd2 : (db2.map DUser.username).Nodup := by
      rw [hdb2, List.map_map]
      have hcomp : (DUser.username ∘ fun u =>
          if u.username = uname then
            { u with refresh_token := some resp.refresh_token }
          else u) = DUser.username := by
        funext u
        by_cases hb : u.username = uname <;> simp [hb]
      rw [hcomp]
      exact hnodup
    exact at_most_one_refresh s db2 hnd2

/-- Witness for C2: logging `alice` in at clock 7 kills the refresh token
that was stored before (issued at clock 0). -/
theorem C2_witness :
    AuthService.verify_refresh_token exSettings exRefreshTok exDbAfter7 100
      = none :=
  (C2_single_active_refresh_token exSettings exDb exDbAfter7 7 100 "alice"
    "pw" exLoginResp7 exRefreshTok exRefreshClaims (by decide) (by decide)
    rfl rfl (by decide)).1

/-- C3 counterexample: a token whose `token_type` claim is `"refresh"`,
presented on the access-token path, is NOT rejected — `get_current_user`
performs no `token_type` check and returns the user. -/
theorem C3_counterexample_refresh_token_accepted_by_access_path :
    exRefreshClaims.token_type = some "refresh" ∧
    get_current_user exSettings exRefreshTok exDb 0 = RouteResult.ok exUser :=
  ⟨rfl, rfl⟩

/-- C3 (amended): the kind check is one-directional. `verify_refresh_token`
rejects every signed token whose `token_type` is not `"refresh"` (in
particular access tokens and tokens with no `token_type` claim), but
`get_current_user` ignores the `token_type` claim entirely: its outcome is
unchanged under any rewriting of that claim. -/
theorem C3_kind_check_one_directional (s : Settings) (db : Db) (now : Int)
    (c : Claims) (tt : Option String) :
    (c.token_type ≠ some "refresh" →
      AuthService.verify_refresh_token s (TokenStr.signed c s.JWT_SECRET)
        db now = none) ∧
    get_current_user s (TokenStr.signed c s.JWT_SECRET) db now =
      get_current_user s
        (TokenStr.signed { c with token_type := tt } s.JWT_SECRET) db now := by
  constructor
  · exact verify_refresh_token_wrong_type s c _ db now
  · by_cases hexp : now ≤ c.exp <;>
      simp [get_current_user, jwtDecode, hexp]

/-- Witness for C3: an access-typed variant of the example claims is
rejected by `verify_refresh_token`. -/
theorem C3_witness :
    AuthService.verify_refresh_token exSettings
      (TokenStr.signed { exRefreshClaims with token_type := some "access" }
        exSettings.JWT_SECRET) exDb 0 = none :=
  (C3_kind_check_one_directional exSettings exDb 0
    { exRefreshClaims with token_type := some "access" } none).1 (by decide)

/-- C4: when the username is found, the password verifies and the account is
confirmed, `login` returns a response whose tokens are well-formed signed
tokens under the configured secret and whose `token_type` is `"bearer"`, and
in the post-state the user's stored `refresh_token` equals the returned
refresh token. -/
theorem C4_login_success_postcondition (s : Settings) (uname pw : String)
    (db : Db) (now : Int) (user : DUser)
    (hlk : UsersRepository.get_user_by_username db uname = some user)
    (hpw : Hash.verify_password pw user.hashed_password = true)
    (hcf : user.confirmed = some true) :
    ∃ resp db2, Api.login s uname pw db now = (RouteResult.ok resp, db2) ∧
      resp.token_type = "bearer" ∧
      (∃ ca, resp.access_token = TokenStr.signed ca s.JWT_SECRET) ∧
      (∃ cr, resp.refresh_token = TokenStr.signed cr s.JWT_SECRET) ∧
      UsersRepository.get_user_by_username db2 uname =
        some { user with refresh_token := some resp.refresh_token } := by
  have huname : user.username = uname := by simpa using List.find?_some hlk
  have hcf' : pyTruthy user.confirmed = true := by rw [hcf]; rfl
  have hlogin : Api.login s uname pw db now =
      (RouteResult.ok
        { access_token := AuthService.create_access_token s
            { sub := some user.username } none now,
          refresh_token := AuthService.create_refresh_token s
            { sub := some user.username } none now,
          token_type := "bearer" },
        db.map fun u =>
          if u.username = user.username then
            { u with refresh_token := some (AuthService.create_refresh_token
                s { sub := some user.username } none now) }
          else u) := by
    unfold Api.login
    rw [hlk]
    simp [hpw, hcf']
  refine ⟨_, _, hlogin, rfl, ⟨_, rfl⟩, ⟨_, rfl⟩, ?_⟩
  have hf : ∀ u : DUser,
      ((fun u : DUser => if u.username = user.username then
          { u with refresh_token := some (AuthService.create_refresh_token
              s { sub := some user.username } none now) }
        else u) u).username = u.username := by
    intro u
    by_cases hb : u.username = user.username <;> simp [hb]
  rw [get_user_by_username_map db uname _ hf, hlk]
  simp

/-- Witness for C4: `alice` logs in successfully in the example state. -/
theorem C4_witness :
    ∃ resp db2,
      Api.login exSettings "alice" "pw" exDb 7 = (RouteResult.ok resp, db2) ∧
      resp.token_type = "bearer" ∧
      (∃ ca, resp.access_token = TokenStr.signed ca exSettings.JWT_SECRET) ∧
      (∃ cr, resp.refresh_token = TokenStr.signed cr exSettings.JWT_SECRET) ∧
      UsersRepository.get_user_by_username db2 "alice" =
        some { exUser with refresh_token := some resp.refresh_token } :=
  C4_login_success_postcondition exSettings "alice" "pw" exDb 7 exUser
    (by decide) (by decide) (by decide)

/-- C5: the login checks run in source order — username lookup, then
password verification, then the `confirmed` flag — each failure rejecting
with its own 401 reason and leaving the directory unchanged; in particular
correct credentials on an unconfirmed account are rejected with
"Email wasn't confirmed" after the password has been verified, with no
token issued and no state mutated. -/
theorem C5_login_failure_order (s : Settings) (uname pw : String) (db : Db)
    (now : Int) :
    (UsersRepository.get_user_by_username db uname = none →
      Api.login s uname pw db now =
        (RouteResult.httpError 401 "Invalid username", db)) ∧
    (∀ user, UsersRepository.get_user_by_username db uname = some user →
      Hash.verify_password pw user.hashed_password = false →
      Api.login s uname pw db now =
        (RouteResult.httpError 401 "Invalid password", db)) ∧
    (∀ user, UsersRepository.get_user_by_username db uname = some user →
      Hash.verify_password pw user.hashed_password = true →
      pyTruthy user.confirmed = false →
      Api.login s uname pw db now =
        (RouteResult.httpError 401 "Email wasn't confirmed", db)) := by
  refine ⟨?_, ?_, ?_⟩
  · intro h
    unfold Api.login
    rw [h]
  · intro user h hpw
    unfold Api.login
    rw [h]
    simp [hpw]
  · intro user h hpw hcf
    unfold Api.login
    rw [h]
    simp [hpw, hcf]

/-- Witness for C5: unconfirmed `bob` with the correct password is rejected
with "Email wasn't confirmed" and the directory is unchanged. -/
theorem C5_witness :
    Api.login exSettings "bob" "pw2" exDbBob 0 =
      (RouteResult.httpError 401 "Email wasn't confirmed", exDbBob) :=
  (C5_login_failure_order exSettings "bob" "pw2" exDbBob 0).2.2 exUserBob
    (by decide) (by decide) (by decide)

/-- C6 counterexample: a refresh at the same clock instant as the login
reproduces the login's access token exactly — JWT encoding is deterministic,
so the "new `access_token` differs from the original" part of the claim
fails when the clock has not advanced. -/
theorem C6_counterexample_same_instant_refresh_repeats_access_token :
    Api.login exSettings "alice" "pw" exDb 0 =
      (RouteResult.ok exLoginResp, exDbAfter) ∧
    Api.new_token exSettings exLoginResp.refresh_token exDbAfter 0 =
      (RouteResult.ok
        { access_token := exLoginResp.access_token,
          refresh_token := exLoginResp.refresh_token,
          token_type := "bearer" }, exDbAfter) :=
  ⟨rfl, rfl⟩

/-- C6 (amended): when the presented token passes `verify_refresh_token`,
the refresh route returns a freshly minted access token for the verified
user's username and echoes the presented refresh token back unchanged,
without touching the directory (no rotation); the minted access token
differs from any access token minted at a different clock instant (at the
same instant the deterministic encoding reproduces the login's token); when
verification fails the route answers 401 with no state change. -/
theorem C6_refresh_no_rotation (s : Settings) (t : TokenStr) (db : Db)
    (now : Int) :
    (∀ user, AuthService.verify_refresh_token s t db now = some user →
      Api.new_token s t db now =
        (RouteResult.ok
          { access_token := AuthService.create_access_token s
              { sub := some user.username } none now,
            refresh_token := t, token_type := "bearer" }, db)) ∧
    (AuthService.verify_refresh_token s t db now = none →
      Api.new_token s t db now =
        (RouteResult.httpError 401 "Invalid or expired refresh token", db)) ∧
    (∀ (d : TokenData) (n0 : Int), n0 ≠ now →
      AuthService.create_access_token s d none n0 ≠
        AuthService.create_access_token s d none now) := by
  refine ⟨?_, ?_, ?_⟩
  · intro user hv
    unfold Api.new_token
    rw [hv]
  · intro hv
    unfold Api.new_token
    rw [hv]
  · intro d n0 hne heq
    simp only [AuthService.create_access_token, AuthService._create_token,
      TokenStr.signed.injEq, Claims.mk.injEq] at heq
    exact hne heq.1.2.2.1

/-- Witness for C6: refreshing with the stored example token echoes it back
and leaves the directory unchanged. -/
theorem C6_witness :
    Api.new_token exSettings exRefreshTok exDb 0 =
      (RouteResult.ok
        { access_token := AuthService.create_access_token exSettings
            { sub := some exUser.username } none 0,
          refresh_token := exRefreshTok, token_type := "bearer" }, exDb) :=
  (C6_refresh_no_rotation exSettings exRefreshTok exDb 0).1 exUser (by decide)

/-- C7 counterexample: a token created with `expires_delta = 0` does NOT
fail verification — `if expires_delta:` is falsy for a zero delta, so the
default 30-minute TTL is used, and the token is still accepted 60 seconds
later. -/
theorem C7_counterexample_zero_ttl_token_accepted :
    get_current_user exSettings
      (AuthService.create_access_token exSettings { sub := some "alice" }
        (some 0) 0) exDb 60 = RouteResult.ok exUser := by
  decide

/-- C7 (amended): a zero `expires_delta` is Python-falsy, so
`create_access_token` falls back to the default TTL
(`ACCESS_TOKEN_EXPIRE_MINUTES`, default 30) and the token passes immediate
verification; a token evaluated after the Clock passes its `expires_at`
fails both verification paths, and one within its ttl decodes
successfully; `expires_at = issued_at + 60 * ACCESS_TOKEN_EXPIRE_MINUTES`. -/
theorem C7_expiry_enforcement (s : Settings) (d : TokenData) (now : Int)
    (c : Claims) (db : Db) :
    AuthService.create_access_token s d (some 0) now =
      AuthService.create_access_token s d none now ∧
    AuthService.create_access_token s d none now =
      TokenStr.signed
        { sub := d.sub, token_type := some "access", iat := now,
          exp := now + 60 * s.ACCESS_TOKEN_EXPIRE_MINUTES }
        s.JWT_SECRET ∧
    (∀ k : String,
      ({ JWT_SECRET := k } : Settings).ACCESS_TOKEN_EXPIRE_MINUTES = 30) ∧
    (∀ now', c.exp < now' →
      get_current_user s (TokenStr.signed c s.JWT_SECRET) db now' =
        RouteResult.httpError 401 "Invalid token" ∧
      AuthService.verify_refresh_token s (TokenStr.signed c s.JWT_SECRET)
        db now' = none) ∧
    (∀ now', now' ≤ c.exp →
      jwtDecode (TokenStr.signed c s.JWT_SECRET) s.JWT_SECRET now'
        = some c) := by
  refine ⟨rfl, rfl, fun k => rfl, ?_, ?_⟩
  · intro now' h
    have hne : ¬ now' ≤ c.exp := by omega
    constructor
    · simp [get_current_user, jwtDecode, hne]
    · simp [AuthService.verify_refresh_token, jwtDecode, hne]
  · intro now' h
    simp [jwtDecode, h]

/-- Witness for C7: the example refresh claims (expiring at 1800) are
rejected on the access path at clock 2000. -/
theorem C7_witness :
    get_current_user exSettings
      (TokenStr.signed exRefreshClaims exSettings.JWT_SECRET) exDb 2000 =
      RouteResult.httpError 401 "Invalid token" :=
  ((C7_expiry_enforcement exSettings { sub := some "alice" } 0
    exRefreshClaims exDb).2.2.2.1 2000 (by decide)).1

/-- C8 counterexample: a validly-signed, unexpired token with no `sub`
claim makes `get_email_from_token` raise an uncaught `KeyError`
(`payload["sub"]`), contradicting "never raises past the TokenAuthority
boundary". -/
theorem C8_counterexample_missing_sub_raises :
    AuthService.get_email_from_token exSettings
      (TokenStr.signed
        { sub := none, token_type := none, iat := 0, exp := 100 } "k") 0
      = Except.error "KeyError" :=
  rfl

/-- C8 (amended): `get_email_from_token` returns the `sub` claim of any
validly-signed unexpired token that carries one (no `token_type` check),
returns `None` on any decode failure (expired or malformed), and raises an
uncaught `KeyError` on a validly-signed token with no `sub` claim. -/
theorem C8_get_email_from_token_spec (s : Settings) (t : TokenStr)
    (now : Int) :
    (∀ c e, t = TokenStr.signed c s.JWT_SECRET → now ≤ c.exp →
      c.sub = some e →
      AuthService.get_email_from_token s t now = Except.ok (some e)) ∧
    (jwtDecode t s.JWT_SECRET now = none →
      AuthService.get_email_from_token s t now = Except.ok none) ∧
    (∀ c, t = TokenStr.signed c s.JWT_SECRET → now ≤ c.exp → c.sub = none →
      AuthService.get_email_from_token s t now = Except.error "KeyError") := by
  refine ⟨?_, ?_, ?_⟩
  · rintro c e rfl hexp hsub
    simp [AuthService.get_email_from_token, jwtDecode, hexp, hsub]
  · intro h
    simp [AuthService.get_email_from_token, h]
  · rintro c rfl hexp hsub
    simp [AuthService.get_email_from_token, jwtDecode, hexp, hsub]

/-- Witness for C8: the example email token yields `bob@example.com`. -/
theorem C8_witness :
    AuthService.get_email_from_token exSettings
      (TokenStr.signed exEmailClaims exSettings.JWT_SECRET) 5
      = Except.ok (some "bob@example.com") :=
  (C8_get_email_from_token_spec exSettings
    (TokenStr.signed exEmailClaims exSettings.JWT_SECRET) 5).1
    exEmailClaims "bob@example.com" rfl (by decide) rfl

/-- C9: for a valid confirmation token of an existing unconfirmed user, the
first confirmation call answers "Email confirmed!" and persists
`confirmed=true`; a second call with the same still-valid token is rejected
with the already-confirmed message and alters no state; an unknown user
yields the distinct "Verification error" rejection. -/
theorem C9_confirmation_idempotent (s : Settings) (db : Db) (now now' : Int)
    (c : Claims) (e : String) (u : DUser)
    (hexp : now ≤ c.exp) (hexp' : now' ≤ c.exp) (hsub : c.sub = some e)
    (hu : UsersRepository.get_user_by_email db e = some u)
    (hcf : pyTruthy u.confirmed = false) :
    Api.confirmed_email s (TokenStr.signed c s.JWT_SECRET) db now =
      (RouteResult.ok "Email confirmed!",
        UsersRepository.confirmed_email db e) ∧
    UsersRepository.get_user_by_email
        (UsersRepository.confirmed_email db e) e =
      some { u with confirmed := some true } ∧
    Api.confirmed_email s (TokenStr.signed c s.JWT_SECRET)
        (UsersRepository.confirmed_email db e) now' =
      (RouteResult.httpError 400 "Your email has already been confirmed",
        UsersRepository.confirmed_email db e) ∧
    (∀ db0, UsersRepository.get_user_by_email db0 e = none →
      Api.confirmed_email s (TokenStr.signed c s.JWT_SECRET) db0 now =
        (RouteResult.httpError 400 "Verification error", db0)) := by
  have hge : ∀ n : Int, n ≤ c.exp →
      AuthService.get_email_from_token s (TokenStr.signed c s.JWT_SECRET) n
        = Except.ok (some e) := by
    intro n hn
    simp [AuthService.get_email_from_token, jwtDecode, hn, hsub]
  have hue : u.email = e := by simpa using List.find?_some hu
  have hf : ∀ v : DUser, ((fun v : DUser =>
      if v.email = e then { v with confirmed := some true } else v) v).email
        = v.email := by
    intro v
    by_cases hb : v.email = e <;> simp [hb]
  have h2 : UsersRepository.get_user_by_email
      (UsersRepository.confirmed_email db e) e =
      some { u with confirmed := some true } := by
    unfold UsersRepository.confirmed_email
    rw [get_user_by_email_map db e _ hf, hu]
    simp [hue]
  refine ⟨?_, h2, ?_, ?_⟩
  · simp [Api.confirmed_email, hge now hexp, hu, hcf]
  · simp [Api.confirmed_email, hge now' hexp', h2, pyTruthy]
  · intro db0 h0
    simp [Api.confirmed_email, hge now hexp, h0]

/-- Witness for C9: confirming the unconfirmed `bob` with a valid email
token succeeds with "Email confirmed!". -/
theorem C9_witness :
    Api.confirmed_email exSettings
      (TokenStr.signed exEmailClaims exSettings.JWT_SECRET) exDbBob 0 =
      (RouteResult.ok "Email confirmed!",
        UsersRepository.confirmed_email exDbBob "bob@example.com") :=
  (C9_confirmation_idempotent exSettings exDbBob 0 5 exEmailClaims
    "bob@example.com" exUserBob (by decide) (by decide) rfl (by decide)
    (by decide)).1

/-- Every row transformation applied to rows matching an email predicate
that keeps `username` and `refresh_token` unchanged preserves the
(username, refresh_token) projection of the directory. -/
theorem refresh_frame_map (db : Db) (e0 : String) (g : DUser → DUser)
    (h1 : ∀ v, (g v).username = v.username)
    (h2 : ∀ v, (g v).refresh_token = v.refresh_token) :
    ((db.map fun v => if v.email = e0 then g v else v).map
      fun v => (v.username, v.refresh_token)) =
      db.map fun v => (v.username, v.refresh_token) := by
  rw [List.map_map]
  have hc : ((fun v : DUser => (v.username, v.refresh_token)) ∘
      fun v => if v.email = e0 then g v else v) =
      fun v : DUser => (v.username, v.refresh_token) := by
    funext v
    by_cases hb : v.email = e0 <;> simp [Function.comp, hb, h1, h2]
  rw [hc]

/-- C10: among the modelled directory-touching operations, only `login`
writes the `refresh_token` column: the refresh route never writes the
directory at all, and the confirmation, password-reset and avatar-update
routes leave every user's `(username, refresh_token)` pair unchanged. -/
theorem C10_only_login_writes_refresh_token (s : Settings) (t : TokenStr)
    (db : Db) (now : Int) (pw : String) (u : DUser) (url : String) :
    (Api.new_token s t db now).2 = db ∧
    ((Api.confirmed_email s t db now).2.map
      fun v => (v.username, v.refresh_token)) =
      (db.map fun v => (v.username, v.refresh_token)) ∧
    ((Api.reset_password s t pw db now).2.map
      fun v => (v.username, v.refresh_token)) =
      (db.map fun v => (v.username, v.refresh_token)) ∧
    ((Api.update_avatar_user u url db).2.map
      fun v => (v.username, v.refresh_token)) =
      (db.map fun v => (v.username, v.refresh_token)) := by
  refine ⟨?_, ?_, ?_, ?_⟩
  · cases hv : AuthService.verify_refresh_token s t db now <;>
      simp [Api.new_token, hv]
  · cases hge : AuthService.get_email_from_token s t now with
    | error exc => simp [Api.confirmed_email, hge]
    | ok emailOpt =>
      cases emailOpt with
      | none => simp [Api.confirmed_email, hge]
      | some email =>
        cases hlu : UsersRepository.get_user_by_email db email with
        | none => simp [Api.confirmed_email, hge, hlu]
        | some user =>
          by_cases hb : pyTruthy user.confirmed
          · simp [Api.confirmed_email, hge, hlu, hb]
          · simp only [Api.confirmed_email, hge, hlu, hb, if_false,
              Bool.false_eq_true, ite_false]
            exact refresh_frame_map db email _ (fun v => rfl) (fun v => rfl)
  · cases hge : AuthService.get_email_from_token s t now with
    | error exc => simp [Api.reset_password, hge]
    | ok emailOpt =>
      cases emailOpt with
      | none => simp [Api.reset_password, hge]
      | some email =>
        cases hlu : UsersRepository.get_user_by_email db email with
        | none => simp [Api.reset_password, hge, hlu]
        | some user =>
          simp only [Api.reset_password, hge, hlu]
          exact refresh_frame_map db email _ (fun v => rfl) (fun v => rfl)
  · simp only [Api.update_avatar_user, UsersRepository.update_avatar_url]
    exact refresh_frame_map db u.email _ (fun v => rfl) (fun v => rfl)

end HW12
